import Mathlib

/-!
Shallow embedding of the Library Store of `Personal Library Manager`
(`personal-library/main.py`): a SQLite-backed books table with the
operations `add_book_to_db`, `get_all_books`, `search_books`,
`delete_book`, `get_statistics`, all built on `execute_query`.

The database state is the list of rows of the `books` table together with
the AUTOINCREMENT counter.  Each SQL statement issued by the program is a
constructor of `Query`, and `runQuery` gives its SQLite semantics.
Storage faults (`sqlite3.Error`) are modelled by a boolean per
`execute_query` call: a faulting call is caught and returns `none`
without committing.  `cursor.lastrowid` is modelled as observed on
CPython 3.11: a fresh connection starts at 0 and an INSERT sets it to the
new rowid, so the commit path of `execute_query` returns the new id for
inserts and 0 for deletes.  SQLite integer division truncates toward
zero, which is `Int.tdiv`.  The two case foldings of the search path are
distinct: SQLite `LOWER` folds only ASCII (exactly `Char.toLower`, for
every character), while Python `str.lower` is Unicode — it is modelled
by `pyLowerChar`, exact on the Basic Latin and Latin-1 ranges (all the
characters appearing in the statements below) and the identity beyond.
`LIKE` compares non-ASCII characters exactly, and neither side of the
program's `LIKE` can carry an ASCII uppercase letter (the field is
`LOWER`ed, the parameter `str.lower`ed), so `likeB` compares characters
exactly.  `ORDER BY` on a text column uses the BINARY collation, i.e.
the lexicographic order on code points.
-/

namespace LibraryStore

/-- Row of the `books` table (schema created by `initialize_database`). -/
structure Book where
  id : Nat
  title : String
  author : String
  year : Int
  genre : String
  read : Bool
deriving DecidableEq, Repr

/-- Database state: current rows plus the AUTOINCREMENT counter for `id`. -/
structure DBState where
  rows : List Book
  nextId : Nat
deriving DecidableEq, Repr

/-- Freshly created database: empty table, first id to be assigned is 1. -/
def initialState : DBState := ⟨[], 1⟩

/-- SQLite `LOWER`: folds exactly the ASCII uppercase letters and leaves
every other character unchanged, which is `Char.toLower` character-wise.
Applied to the searched field by the `WHERE LOWER(...) LIKE ?` clauses. -/
def sqliteLower (s : String) : String := ⟨s.data.map Char.toLower⟩

/-- Python `str.lower` on one character: Unicode lowering, modelled
exactly on the Basic Latin range (`A`–`Z` map down by 32) and the Latin-1
range (`À`–`Þ` except `×` map down by 32), the identity elsewhere (the
model's scope; no statement below exercises `str.lower` beyond
Latin-1). -/
def pyLowerChar (c : Char) : Char :=
  if 65 ≤ c.toNat ∧ c.toNat ≤ 90 then Char.ofNat (c.toNat + 32)
  else if 192 ≤ c.toNat ∧ c.toNat ≤ 222 ∧ c.toNat ≠ 215 then Char.ofNat (c.toNat + 32)
  else c

/-- Python `str.lower`, applied by `search_books` to the search string
when building the LIKE parameter. -/
def pyLower (s : String) : String := ⟨s.data.map pyLowerChar⟩

/-- Lexicographic comparison on code points: SQLite BINARY collation on
(valid UTF-8) text, used by `ORDER BY title` / `ORDER BY author`. -/
def lexLe : List Char → List Char → Bool
  | [], _ => true
  | _ :: _, [] => false
  | a :: as, b :: bs =>
    if a.toNat < b.toNat then true
    else if b.toNat < a.toNat then false
    else lexLe as bs

/-- SQLite `LIKE` matching: `%` matches any sequence of characters (i.e.
the rest of the pattern must match some suffix), `_` matches any single
character, anything else matches itself (both sides are already lowered
by the program, so ASCII case folding is the identity here). -/
def likeB : List Char → List Char → Bool
  | [], s => s.isEmpty
  | p₀ :: ps, s =>
    if p₀ == '%' then s.tails.any fun t => likeB ps t
    else
      match s with
      | [] => false
      | c :: t => (p₀ == '_' || p₀ == c) && likeB ps t

/-- Test of `LOWER(field) LIKE pattern` for one row field. -/
def likeRow (pattern : String) (field : String) : Bool :=
  likeB pattern.data (sqliteLower field).data

/-- Order used by `ORDER BY title`. -/
def titleLe (b₁ b₂ : Book) : Prop := lexLe b₁.title.data b₂.title.data = true

instance : DecidableRel titleLe := fun b₁ b₂ =>
  inferInstanceAs (Decidable (lexLe b₁.title.data b₂.title.data = true))

/-- Order used by `ORDER BY author`. -/
def authorLe (b₁ b₂ : Book) : Prop := lexLe b₁.author.data b₂.author.data = true

instance : DecidableRel authorLe := fun b₁ b₂ =>
  inferInstanceAs (Decidable (lexLe b₁.author.data b₂.author.data = true))

/-- Order used by `ORDER BY count DESC`. -/
def countGe {α : Type} (p q : α × Nat) : Prop := q.2 ≤ p.2

instance {α : Type} : DecidableRel (countGe (α := α)) := fun p q =>
  inferInstanceAs (Decidable (q.2 ≤ p.2))

/-- Order used by `ORDER BY decade` (ascending). -/
def decadeLe (p q : Int × Nat) : Prop := p.1 ≤ q.1

instance : DecidableRel decadeLe := fun p q =>
  inferInstanceAs (Decidable (p.1 ≤ q.1))

/-- Semantics of SQL `GROUP BY` with `COUNT(*)`: one pair per distinct key
with the number of its occurrences. -/
def groupCounts {α : Type} [DecidableEq α] (l : List α) : List (α × Nat) :=
  l.dedup.map fun k => (k, l.count k)

/-- Decade key computed by the SQL expression `(year / 10) * 10`; SQLite
division truncates toward zero. -/
def sqlDecade (y : Int) : Int := y.tdiv 10 * 10

/-- Semantics of `GROUP BY key ORDER BY count DESC LIMIT 5` over the list
of grouping keys of the rows. -/
def topPairs {α : Type} [DecidableEq α] (keys : List α) : List (α × Nat) :=
  ((groupCounts keys).insertionSort countGe).take 5

/-- Semantics of the decades query `GROUP BY decade ORDER BY decade` over
the rows. -/
def decadePairs (rows : List Book) : List (Int × Nat) :=
  (groupCounts (rows.map fun b => sqlDecade b.year)).insertionSort decadeLe

/-- Absence of the LIKE wildcard characters from a string's characters. -/
def noWild (l : List Char) : Prop := ∀ c ∈ l, c ≠ '%' ∧ c ≠ '_'

instance (l : List Char) : Decidable (noWild l) :=
  inferInstanceAs (Decidable (∀ c ∈ l, c ≠ '%' ∧ c ≠ '_'))

/-- SQL statements issued by the program, one constructor per query
string appearing in `main.py`. -/
inductive Query where
  | insertBook (title author : String) (year : Int) (genre : String) (read : Bool)
  | selectAllBooks
  | selectTitleLike (pattern : String)
  | selectAuthorLike (pattern : String)
  | deleteById (book_id : Nat)
  | countAll
  | countRead
  | topGenres
  | topAuthors
  | decadesAsc
deriving DecidableEq, Repr

/-- Result rows of a fetched query. -/
inductive FetchRows where
  | books (bs : List Book)
  | counts (n : Nat)
  | strPairs (ps : List (String × Nat))
  | intPairs (ps : List (Int × Nat))
deriving DecidableEq, Repr

/-- Value returned by a successful `execute_query` call: the fetched rows
on the `fetchall` path, `cursor.lastrowid` on the commit path. -/
inductive QueryResult where
  | rows (r : FetchRows)
  | rowid (n : Nat)
deriving DecidableEq, Repr

/-- SQLite semantics of each query: new state, result rows, and the value
of `cursor.lastrowid` after execution on a fresh connection (0 unless the
statement is an INSERT, which sets it to the new rowid). -/
def runQuery (s : DBState) : Query → DBState × FetchRows × Nat
  | .insertBook t a y g r =>
    (⟨s.rows ++ [⟨s.nextId, t, a, y, g, r⟩], s.nextId + 1⟩, .books [], s.nextId)
  | .selectAllBooks =>
    (s, .books (s.rows.insertionSort titleLe), 0)
  | .selectTitleLike pat =>
    (s, .books ((s.rows.filter fun b => likeRow pat b.title).insertionSort titleLe), 0)
  | .selectAuthorLike pat =>
    (s, .books ((s.rows.filter fun b => likeRow pat b.author).insertionSort authorLe), 0)
  | .deleteById i =>
    (⟨s.rows.filter (fun b => b.id != i), s.nextId⟩, .books [], 0)
  | .countAll =>
    (s, .counts s.rows.length, 0)
  | .countRead =>
    (s, .counts (s.rows.filter (fun b => b.read)).length, 0)
  | .topGenres =>
    (s, .strPairs (topPairs (s.rows.map fun b => b.genre)), 0)
  | .topAuthors =>
    (s, .strPairs (topPairs (s.rows.map fun b => b.author)), 0)
  | .decadesAsc =>
    (s, .intPairs (decadePairs s.rows), 0)

/-- Embedding of `execute_query(query, parameters, fetchall)`: a storage
fault is caught and yields `none` with nothing committed; otherwise the
`fetchall` path fetches the rows and closes the connection without
committing (so the state is unchanged), and the commit path commits the
statement and returns `cursor.lastrowid`. -/
def execute_query (s : DBState) (fault : Bool) (q : Query) (fetchall : Bool) :
    DBState × Option QueryResult :=
  if fault then (s, none)
  else if fetchall then (s, some (.rows (runQuery s q).2.1))
  else ((runQuery s q).1, some (.rowid (runQuery s q).2.2))

/-- Embedding of `add_book_to_db`: runs the INSERT and returns
`book_id is not None`, a boolean. -/
def add_book_to_db (s : DBState) (fault : Bool) (title author : String)
    (year : Int) (genre : String) (read_status : Bool) : DBState × Bool :=
  let r := execute_query s fault (.insertBook title author year genre read_status) false
  (r.1, r.2.isSome)

/-- Embedding of `get_all_books`: `SELECT ... ORDER BY title` fetched;
a falsy result (fault or empty) yields `[]`, otherwise the rows are
converted one-to-one into records. -/
def get_all_books (s : DBState) (fault : Bool) : DBState × List Book :=
  let r := execute_query s fault .selectAllBooks true
  match r.2 with
  | some (.rows (.books bs)) => (r.1, if bs.isEmpty then [] else bs)
  | _ => (r.1, [])

/-- Embedding of `search_books`: chooses the title or author query by
`search_type`, builds the parameter `"%" + search_query.lower() + "%"`,
and converts the fetched rows as in `get_all_books`. -/
def search_books (s : DBState) (fault : Bool) (search_type search_query : String) :
    DBState × List Book :=
  let pattern := "%" ++ pyLower search_query ++ "%"
  let q : Query := if search_type = "Title" then .selectTitleLike pattern
    else .selectAuthorLike pattern
  let r := execute_query s fault q true
  match r.2 with
  | some (.rows (.books bs)) => (r.1, if bs.isEmpty then [] else bs)
  | _ => (r.1, [])

/-- Embedding of `delete_book`: runs the DELETE on the commit path and
returns `result is not None`; `cursor.lastrowid` is 0 (not `None`) after
a DELETE on a fresh connection, so a fault-free delete returns `true`. -/
def delete_book (s : DBState) (fault : Bool) (book_id : Nat) : DBState × Bool :=
  let r := execute_query s fault (.deleteById book_id) false
  (r.1, r.2.isSome)

/-- Fault flags for the five `execute_query` calls in `get_statistics`. -/
structure StatsFaults where
  total : Bool
  read : Bool
  genre : Bool
  author : Bool
  decade : Bool
deriving DecidableEq, Repr

/-- Fault-free statistics run. -/
def noFaults : StatsFaults := ⟨false, false, false, false, false⟩

/-- Statistics run in which every query faults. -/
def allFaults : StatsFaults := ⟨true, true, true, true, true⟩

/-- Report returned by `get_statistics`; the Python dicts (insertion
ordered) are association lists. -/
structure Statistics where
  total_books : Nat
  read_books : Nat
  read_percentage : ℚ
  genres : List (String × Nat)
  authors : List (String × Nat)
  decades : List (String × Nat)
deriving DecidableEq, Repr

/-- Embedding of `get_statistics`: five fetched queries in order, each
defaulting to 0 / empty on a falsy result, with the read percentage
guarded by `total_books > 0` and decades formatted as `f"{decade}s"`. -/
def get_statistics (s : DBState) (f : StatsFaults) : DBState × Statistics :=
  let r₁ := execute_query s f.total .countAll true
  let total_books : Nat := match r₁.2 with
    | some (.rows (.counts n)) => n
    | _ => 0
  let r₂ := execute_query r₁.1 f.read .countRead true
  let read_books : Nat := match r₂.2 with
    | some (.rows (.counts n)) => n
    | _ => 0
  let read_percentage : ℚ :=
    if total_books > 0 then ((read_books : ℚ) / (total_books : ℚ)) * 100 else 0
  let r₃ := execute_query r₂.1 f.genre .topGenres true
  let genres := match r₃.2 with
    | some (.rows (.strPairs ps)) => ps
    | _ => []
  let r₄ := execute_query r₃.1 f.author .topAuthors true
  let authors := match r₄.2 with
    | some (.rows (.strPairs ps)) => ps
    | _ => []
  let r₅ := execute_query r₄.1 f.decade .decadesAsc true
  let decades := match r₅.2 with
    | some (.rows (.intPairs ps)) => ps.map fun p => (toString p.1 ++ "s", p.2)
    | _ => []
  (r₅.1, ⟨total_books, read_books, read_percentage, genres, authors, decades⟩)

/-- User-level operations of the store, with the fault flags of their
underlying queries; used to quantify over "every sequence of prior
operations". -/
inductive Op where
  | add (title author : String) (year : Int) (genre : String) (read : Bool) (fault : Bool)
  | del (book_id : Nat) (fault : Bool)
  | list (fault : Bool)
  | search (search_type search_query : String) (fault : Bool)
  | stats (f : StatsFaults)
deriving DecidableEq, Repr

/-- State transition of one operation. -/
def applyOp (s : DBState) : Op → DBState
  | .add t a y g r f => (add_book_to_db s f t a y g r).1
  | .del i f => (delete_book s f i).1
  | .list f => (get_all_books s f).1
  | .search ty q f => (search_books s f ty q).1
  | .stats f => (get_statistics s f).1

/-- Ids assigned (inserted) by one operation run from state `s`. -/
def opAssigns (s : DBState) : Op → List Nat
  | .add _ _ _ _ _ f => if f then [] else [s.nextId]
  | _ => []

/-- One step of a run, accumulating the list of every id ever assigned. -/
def stepIds (p : DBState × List Nat) (op : Op) : DBState × List Nat :=
  (applyOp p.1 op, p.2 ++ opAssigns p.1 op)

/-- Runs a sequence of operations from the fresh database, returning the
final state together with all ids assigned along the way. -/
def runIds (ops : List Op) : DBState × List Nat :=
  ops.foldl stepIds (initialState, [])

/-! Basic facts about `execute_query`. -/

/-- Normal form of a fetching `execute_query` call: the state is returned
unchanged (the connection is closed without commit). -/
theorem execute_query_fetch (s : DBState) (fault : Bool) (q : Query) :
    execute_query s fault q true =
      (s, if fault then none else some (.rows (runQuery s q).2.1)) := by
  cases fault <;> rfl

/-- State component of `get_all_books`. -/
theorem get_all_books_fst (s : DBState) (fault : Bool) : (get_all_books s fault).1 = s := by
  cases fault <;> rfl

/-- State component of `search_books`. -/
theorem search_books_fst (s : DBState) (fault : Bool) (search_type search_query : String) :
    (search_books s fault search_type search_query).1 = s := by
  by_cases h : search_type = "Title" <;>
    cases fault <;>
      simp [search_books, execute_query_fetch, runQuery, h]

/-- State component of `get_statistics`. -/
theorem get_statistics_fst (s : DBState) (f : StatsFaults) : (get_statistics s f).1 = s := by
  unfold get_statistics
  simp only [execute_query_fetch]

/-- Discarding an empty list is the identity, so the `if not books_data`
guard never changes the returned rows. -/
theorem if_isEmpty_self {α : Type} (l : List α) : (if l.isEmpty then [] else l) = l := by
  cases l <;> rfl

/-- List returned by a fault-free `get_all_books`. -/
theorem get_all_books_res (s : DBState) :
    (get_all_books s false).2 = s.rows.insertionSort titleLe :=
  if_isEmpty_self _

/-- List returned by a fault-free title search. -/
theorem search_books_title_res (s : DBState) (q : String) :
    (search_books s false "Title" q).2 =
      (s.rows.filter fun b =>
        likeRow ("%" ++ pyLower q ++ "%") b.title).insertionSort titleLe :=
  if_isEmpty_self _

/-- List returned by a fault-free author search. -/
theorem search_books_author_res (s : DBState) (q : String) :
    (search_books s false "Author" q).2 =
      (s.rows.filter fun b =>
        likeRow ("%" ++ pyLower q ++ "%") b.author).insertionSort authorLe :=
  if_isEmpty_self _

/-- C10: List, Search, and Statistics never modify the stored table: for
every state and every fault outcome, the database after any of these read
operations is identical to the database before, because the fetch path of
`execute_query` issues only SELECT statements and performs no commit. -/
theorem read_ops_preserve_state (s : DBState) (f₁ f₂ : Bool)
    (search_type search_query : String) (f : StatsFaults) :
    (get_all_books s f₁).1 = s ∧
      (search_books s f₂ search_type search_query).1 = s ∧
      (get_statistics s f).1 = s :=
  ⟨get_all_books_fst s f₁, search_books_fst s f₂ search_type search_query,
    get_statistics_fst s f⟩

/-- C2: a fault-free `delete_book` always reports success (`cursor.lastrowid`
is 0, not `None`, after a DELETE on a fresh connection), and when no row has
the given id the table is unchanged: deleting a missing id is a no-op
success, not a "not found" error. -/
theorem delete_missing_is_noop_success (s : DBState) (i : Nat) :
    (delete_book s false i).2 = true ∧
      ((∀ b ∈ s.rows, b.id ≠ i) → (delete_book s false i).1 = s) := by
  refine ⟨rfl, fun h => ?_⟩
  have hf : s.rows.filter (fun b => b.id != i) = s.rows :=
    List.filter_eq_self.mpr (by intro b hb; simpa using h b hb)
  show (⟨s.rows.filter (fun b => b.id != i), s.nextId⟩ : DBState) = s
  rw [hf]

/-- C2 witness: deleting the never-assigned id 5 from a one-row table
reports success and leaves the table unchanged. -/
theorem delete_missing_is_noop_success_holds :
    (delete_book ⟨[⟨1, "t", "a", 2000, "g", true⟩], 2⟩ false 5).2 = true ∧
      (delete_book ⟨[⟨1, "t", "a", 2000, "g", true⟩], 2⟩ false 5).1 =
        ⟨[⟨1, "t", "a", 2000, "g", true⟩], 2⟩ := by
  have h := delete_missing_is_noop_success ⟨[⟨1, "t", "a", 2000, "g", true⟩], 2⟩ 5
  exact ⟨h.1, h.2 (by decide)⟩

/-- C3 counterexample: two consecutive fault-free adds assign the distinct
ids 1 and 2 but both return the same value `true`: the value handed to the
caller of `add_book_to_db` is a boolean success flag, not the newly
assigned id. -/
theorem add_does_not_return_id_cex :
    (add_book_to_db initialState false "t" "a" 2000 "g" true).2 =
      (add_book_to_db (add_book_to_db initialState false "t" "a" 2000 "g" true).1
        false "u" "b" 2001 "h" false).2 ∧
      opAssigns initialState (.add "t" "a" 2000 "g" true false) = [1] ∧
      opAssigns (add_book_to_db initialState false "t" "a" 2000 "g" true).1
        (.add "u" "b" 2001 "h" false false) = [2] := by decide

/-- C3 (amended): on success `add_book_to_db` returns the boolean `true`
(a success flag); the newly assigned id is produced inside `execute_query`
as `cursor.lastrowid` of the INSERT, but `add_book_to_db` discards it and
reports only `book_id is not None`. -/
theorem add_success_returns_true (s : DBState) (t a : String) (y : Int)
    (g : String) (r : Bool) :
    (add_book_to_db s false t a y g r).2 = true ∧
      (execute_query s false (.insertBook t a y g r) false).2 =
        some (.rowid s.nextId) ∧
      (add_book_to_db s false t a y g r).1.rows =
        s.rows ++ [⟨s.nextId, t, a, y, g, r⟩] :=
  ⟨rfl, rfl, rfl⟩

/-- C5: statistics on the empty table report zero totals and a zero read
percentage (the division is guarded, so there is no division by zero), and
whenever the total is positive the percentage equals
`100 * read_count / total_count` in exact arithmetic. -/
theorem statistics_division_guard :
    ((get_statistics initialState noFaults).2.total_books = 0 ∧
      (get_statistics initialState noFaults).2.read_books = 0 ∧
      (get_statistics initialState noFaults).2.read_percentage = 0) ∧
    ∀ s : DBState, 0 < (get_statistics s noFaults).2.total_books →
      (get_statistics s noFaults).2.read_percentage =
        100 * ((get_statistics s noFaults).2.read_books : ℚ) /
          ((get_statistics s noFaults).2.total_books : ℚ) := by
  refine ⟨⟨rfl, rfl, rfl⟩, fun s hs => ?_⟩
  have ht : (get_statistics s noFaults).2.total_books = s.rows.length := rfl
  have hr : (get_statistics s noFaults).2.read_books =
      (s.rows.filter (fun b => b.read)).length := rfl
  have hp : (get_statistics s noFaults).2.read_percentage =
      if s.rows.length > 0 then
        (((s.rows.filter (fun b => b.read)).length : ℚ) / (s.rows.length : ℚ)) * 100
      else 0 := rfl
  rw [ht] at hs
  rw [hp, if_pos hs, ht, hr]
  ring

/-- C5 witness: on a concrete one-row table the total is positive and the
percentage identity holds. -/
theorem statistics_division_guard_holds :
    0 < (get_statistics ⟨[⟨1, "t", "a", 2000, "g", true⟩], 2⟩ noFaults).2.total_books ∧
      (get_statistics ⟨[⟨1, "t", "a", 2000, "g", true⟩], 2⟩ noFaults).2.read_percentage =
        100 * ((get_statistics ⟨[⟨1, "t", "a", 2000, "g", true⟩], 2⟩ noFaults).2.read_books : ℚ) /
          ((get_statistics ⟨[⟨1, "t", "a", 2000, "g", true⟩], 2⟩ noFaults).2.total_books : ℚ) :=
  ⟨by decide,
    statistics_division_guard.2 ⟨[⟨1, "t", "a", 2000, "g", true⟩], 2⟩ (by decide)⟩

/-- C8: every storage fault is caught at the point of execution and the
invoking operation returns a benign, type-appropriate default — `false`
for Add and Delete, the empty list for List and Search, and all-zero/empty
aggregates for Statistics — with the database left unchanged and no
exception propagated (the embedding is total: faults are values, never
thrown). -/
theorem fault_returns_defaults (s : DBState) (t a g search_type search_query : String)
    (y : Int) (r : Bool) (i : Nat) :
    add_book_to_db s true t a y g r = (s, false) ∧
      get_all_books s true = (s, []) ∧
      search_books s true search_type search_query = (s, []) ∧
      delete_book s true i = (s, false) ∧
      get_statistics s allFaults = (s, ⟨0, 0, 0, [], [], []⟩) :=
  ⟨rfl, rfl, rfl, rfl, rfl⟩

/-! Properties of the BINARY-collation order `lexLe`. -/

/-- Totality of the collation order. -/
theorem lexLe_total : ∀ a b : List Char, lexLe a b = true ∨ lexLe b a = true
  | [], _ => Or.inl rfl
  | _ :: _, [] => Or.inr rfl
  | a :: as, b :: bs => by
    rcases Nat.lt_trichotomy a.toNat b.toNat with h | h | h
    · exact Or.inl (by simp [lexLe, h])
    · rcases lexLe_total as bs with ih | ih
      · exact Or.inl (by simp [lexLe, h, ih])
      · exact Or.inr (by simp [lexLe, h, ih])
    · exact Or.inr (by simp [lexLe, h])

/-- Transitivity of the collation order. -/
theorem lexLe_trans : ∀ a b c : List Char,
    lexLe a b = true → lexLe b c = true → lexLe a c = true
  | [], _, _, _, _ => rfl
  | _ :: _, [], _, h₁, _ => by simp [lexLe] at h₁
  | _ :: _, _ :: _, [], _, h₂ => by simp [lexLe] at h₂
  | a :: as, b :: bs, c :: cs, h₁, h₂ => by
    simp only [lexLe] at h₁ h₂ ⊢
    rcases Nat.lt_trichotomy a.toNat b.toNat with hab | hab | hab
    · rcases Nat.lt_trichotomy b.toNat c.toNat with hbc | hbc | hbc
      · simp [show a.toNat < c.toNat from Nat.lt_trans hab hbc]
      · simp [show a.toNat < c.toNat from hbc ▸ hab]
      · rw [if_neg (by omega), if_pos hbc] at h₂
        exact absurd h₂ (by simp)
    · rw [if_neg (by omega), if_neg (by omega)] at h₁
      rcases Nat.lt_trichotomy b.toNat c.toNat with hbc | hbc | hbc
      · simp [show a.toNat < c.toNat by omega]
      · rw [if_neg (by omega), if_neg (by omega)] at h₂
        rw [if_neg (by omega), if_neg (by omega)]
        exact lexLe_trans as bs cs h₁ h₂
      · rw [if_neg (by omega), if_pos hbc] at h₂
        exact absurd h₂ (by simp)
    · rw [if_neg (by omega), if_pos hab] at h₁
      exact absurd h₁ (by simp)

/-! Characterization of SQLite `LIKE` for the patterns the program builds. -/

/-- Leading `%`: the rest of the pattern must match some suffix. -/
theorem likeB_percent (ps s : List Char) :
    likeB ('%' :: ps) s = true ↔ ∃ t, t <:+ s ∧ likeB ps t = true := by
  simp only [likeB]
  rw [if_pos (by rfl)]
  simp [List.any_eq_true, List.mem_tails]

/-- Wildcard-free pattern followed by `%`: matches exactly the strings
with the literal part as a leading fragment. -/
theorem likeB_literal : ∀ q : List Char, noWild q →
    ∀ s, (likeB (q ++ ['%']) s = true ↔ q <+: s)
  | [], _, s => by
    rw [List.nil_append]
    constructor
    · intro _
      exact List.nil_prefix
    · intro _
      exact (likeB_percent [] s).mpr ⟨[], List.nil_suffix, rfl⟩
  | c :: q, hq, s => by
    have hc := hq c (List.mem_cons_self c q)
    have hq' : noWild q := fun x hx => hq x (List.mem_cons_of_mem c hx)
    cases s with
    | nil =>
      simp only [List.cons_append, likeB]
      rw [if_neg (by simp [hc.1])]
      simp
    | cons c₀ t =>
      simp only [List.cons_append, likeB]
      rw [if_neg (by simp [hc.1])]
      rw [List.cons_prefix_cons, ← likeB_literal q hq' t]
      simp [hc.2]

/-- Pattern `%q%` with `q` wildcard-free holds exactly on strings
containing `q` as a contiguous substring. -/
theorem likeB_contains (q : List Char) (hq : noWild q) (s : List Char) :
    likeB ('%' :: (q ++ ['%'])) s = true ↔ q <:+: s := by
  rw [likeB_percent]
  constructor
  · rintro ⟨t, hts, hm⟩
    exact List.infix_iff_prefix_suffix.mpr ⟨t, (likeB_literal q hq t).mp hm, hts⟩
  · intro h
    rcases List.infix_iff_prefix_suffix.mp h with ⟨t, hp, hsuf⟩
    exact ⟨t, hsuf, (likeB_literal q hq t).mpr hp⟩

/-- Every string is a LIKE-match for the pattern built from itself
followed by `%`, wildcards included. -/
theorem likeB_pattern_self : ∀ q : List Char, likeB (q ++ ['%']) q = true
  | [] => rfl
  | c :: q => by
    simp only [List.cons_append, likeB]
    by_cases hc : (c == '%') = true
    · rw [if_pos hc]
      rw [List.any_eq_true]
      exact ⟨q, (List.mem_tails q (c :: q)).mpr (List.suffix_cons c q), likeB_pattern_self q⟩
    · rw [if_neg hc]
      simp [likeB_pattern_self q]

/-- Every string is contained in itself: the `%q%` pattern built from `q`
matches `q`. -/
theorem likeB_self (q : List Char) : likeB ('%' :: (q ++ ['%'])) q = true :=
  (likeB_percent _ q).mpr ⟨q, List.suffix_refl q, likeB_pattern_self q⟩

/-! ASCII lowering preserves the absence of wildcards. -/

/-- Value of `Char.ofNat` on valid code points below the surrogate range. -/
theorem char_toNat_ofNat_valid {n : Nat} (h : n < 55296) : (Char.ofNat n).toNat = n := by
  rw [Char.ofNat, dif_pos (Or.inl h)]
  rfl

/-- ASCII lowering never produces the wildcard characters `%` or `_`. -/
theorem toLower_not_wild {c : Char} (h₁ : c ≠ '%') (h₂ : c ≠ '_') :
    c.toLower ≠ '%' ∧ c.toLower ≠ '_' := by
  by_cases hup : c.toNat ≥ 65 ∧ c.toNat ≤ 90
  · have hlow : c.toLower = Char.ofNat (c.toNat + 32) := by
      unfold Char.toLower
      simp [hup]
    have hv : (Char.ofNat (c.toNat + 32)).toNat = c.toNat + 32 :=
      char_toNat_ofNat_valid (by omega)
    have h37 : ('%' : Char).toNat = 37 := rfl
    have h95 : ('_' : Char).toNat = 95 := rfl
    rw [hlow]
    constructor <;> intro he <;> rw [he] at hv
    · rw [h37] at hv
      omega
    · rw [h95] at hv
      omega
  · have hlow : c.toLower = c := by
      unfold Char.toLower
      simp [hup]
    rw [hlow]
    exact ⟨h₁, h₂⟩

/-- Lowering a wildcard-free character list keeps it wildcard-free. -/
theorem noWild_lower {l : List Char} (h : noWild l) : noWild (l.map Char.toLower) := by
  intro c hc
  rcases List.mem_map.mp hc with ⟨c₀, hc₀, rfl⟩
  exact toLower_not_wild (h c₀ hc₀).1 (h c₀ hc₀).2

/-- Characters of a `LOWER`ed string. -/
theorem sqliteLower_data (s : String) : (sqliteLower s).data = s.data.map Char.toLower := rfl

/-- Characters of a `str.lower`ed string. -/
theorem pyLower_data (s : String) : (pyLower s).data = s.data.map pyLowerChar := rfl

/-- Characters of a `%`-wrapped LIKE parameter. -/
theorem pattern_data (x : String) :
    ("%" ++ x ++ "%").data = '%' :: (x.data ++ ['%']) := by
  rw [String.data_append, String.data_append]
  rfl

/-- Python `str.lower` agrees with SQLite `LOWER` on ASCII characters. -/
theorem pyLowerChar_ascii {c : Char} (h : c.toNat < 128) : pyLowerChar c = c.toLower := by
  have h₂ : ¬(192 ≤ c.toNat ∧ c.toNat ≤ 222 ∧ c.toNat ≠ 215) := by omega
  by_cases h₁ : 65 ≤ c.toNat ∧ c.toNat ≤ 90
  · simp [pyLowerChar, Char.toLower, h₁, h₂, ge_iff_le]
  · simp [pyLowerChar, Char.toLower, h₁, h₂, ge_iff_le]

/-- On ASCII search strings the two foldings of the search path agree. -/
theorem pyLower_eq_sqliteLower {q : String} (h : ∀ c ∈ q.data, c.toNat < 128) :
    pyLower q = sqliteLower q :=
  congrArg String.mk (List.map_congr_left fun c hc => pyLowerChar_ascii (h c hc))

/-- LIKE test performed by the search queries, as substring containment. -/
theorem likeRow_eq_decide (q : String) (hw : noWild (sqliteLower q).data) (f : String) :
    likeRow ("%" ++ sqliteLower q ++ "%") f =
      decide ((sqliteLower q).data <:+: (sqliteLower f).data) := by
  rw [likeRow, pattern_data]
  exact Bool.eq_iff_iff.mpr (by rw [decide_eq_true_eq]; exact likeB_contains _ hw _)

/-- C4 counterexample: at non-ASCII inputs the search is not a
case-insensitive containment match.  The query "Über" has no LIKE special
characters, the stored title "Über" contains it case-insensitively (it is
the query itself), yet the search misses that row: Python lowers the
parameter to "über" while SQLite `LOWER` leaves the field at "Über", and
`LIKE` does not fold non-ASCII case.  The search instead returns the row
titled "über", which differs from the query only by case. -/
theorem search_is_ci_substring_cex :
    (search_books ⟨[⟨1, "Über", "x", 2000, "g", false⟩,
        ⟨2, "über", "x", 2000, "g", false⟩], 3⟩ false "Title" "Über").2 =
      [⟨2, "über", "x", 2000, "g", false⟩] ∧
      (⟨1, "Über", "x", 2000, "g", false⟩ : Book) ∉
        (search_books ⟨[⟨1, "Über", "x", 2000, "g", false⟩,
          ⟨2, "über", "x", 2000, "g", false⟩], 3⟩ false "Title" "Über").2 ∧
      (pyLower "Über").data <:+: (pyLower "Über").data ∧
      noWild "Über".data := by decide

/-- C4 (amended): for every stored table and every ASCII search string
free of the LIKE special characters `%` and `_`, searching returns
exactly the rows whose chosen field (title or author) contains the
search string case-insensitively (containment of the ASCII-folded
strings) as a contiguous substring — a "contains" match, not a prefix or
exact match — ordered ascending by the matched field; a query matching
no row returns the empty list.  (For non-ASCII search strings Python's
Unicode lowering of the parameter and SQLite's ASCII-only `LOWER` of the
field disagree, and the property fails: see the counterexample.) -/
theorem search_is_ci_substring (s : DBState) (q : String)
    (hascii : ∀ c ∈ q.data, c.toNat < 128) (hq : noWild q.data) :
    (List.Perm (search_books s false "Title" q).2
        (s.rows.filter (fun b => decide ((sqliteLower q).data <:+: (sqliteLower b.title).data))) ∧
      (∀ b, b ∈ (search_books s false "Title" q).2 ↔
        b ∈ s.rows ∧ (sqliteLower q).data <:+: (sqliteLower b.title).data) ∧
      (search_books s false "Title" q).2.Sorted titleLe ∧
      ((∀ b ∈ s.rows, ¬ (sqliteLower q).data <:+: (sqliteLower b.title).data) →
        (search_books s false "Title" q).2 = [])) ∧
    (List.Perm (search_books s false "Author" q).2
        (s.rows.filter (fun b => decide ((sqliteLower q).data <:+: (sqliteLower b.author).data))) ∧
      (∀ b, b ∈ (search_books s false "Author" q).2 ↔
        b ∈ s.rows ∧ (sqliteLower q).data <:+: (sqliteLower b.author).data) ∧
      (search_books s false "Author" q).2.Sorted authorLe ∧
      ((∀ b ∈ s.rows, ¬ (sqliteLower q).data <:+: (sqliteLower b.author).data) →
        (search_books s false "Author" q).2 = [])) := by
  have hpq : pyLower q = sqliteLower q := pyLower_eq_sqliteLower hascii
  have hw : noWild (sqliteLower q).data := by
    rw [sqliteLower_data]
    exact noWild_lower hq
  haveI : IsTotal Book titleLe := ⟨fun x y => lexLe_total _ _⟩
  haveI : IsTrans Book titleLe := ⟨fun x y z => lexLe_trans _ _ _⟩
  haveI : IsTotal Book authorLe := ⟨fun x y => lexLe_total _ _⟩
  haveI : IsTrans Book authorLe := ⟨fun x y z => lexLe_trans _ _ _⟩
  have hresT : (search_books s false "Title" q).2 =
      (s.rows.filter (fun b =>
        decide ((sqliteLower q).data <:+: (sqliteLower b.title).data))).insertionSort titleLe := by
    rw [search_books_title_res, hpq]
    congr 1
    exact List.filter_congr (fun b _ => likeRow_eq_decide q hw b.title)
  have hresA : (search_books s false "Author" q).2 =
      (s.rows.filter (fun b =>
        decide ((sqliteLower q).data <:+: (sqliteLower b.author).data))).insertionSort authorLe := by
    rw [search_books_author_res, hpq]
    congr 1
    exact List.filter_congr (fun b _ => likeRow_eq_decide q hw b.author)
  refine ⟨⟨?_, ?_, ?_, ?_⟩, ?_, ?_, ?_, ?_⟩
  · rw [hresT]
    exact List.perm_insertionSort _ _
  · intro b
    rw [hresT, List.mem_insertionSort, List.mem_filter]
    simp
  · rw [hresT]
    exact List.sorted_insertionSort _ _
  · intro h
    rw [hresT, List.filter_eq_nil_iff.mpr (fun b hb => by simpa using h b hb)]
    rfl
  · rw [hresA]
    exact List.perm_insertionSort _ _
  · intro b
    rw [hresA, List.mem_insertionSort, List.mem_filter]
    simp
  · rw [hresA]
    exact List.sorted_insertionSort _ _
  · intro h
    rw [hresA, List.filter_eq_nil_iff.mpr (fun b hb => by simpa using h b hb)]
    rfl

/-- C4 witness: the search string "great" is ASCII and has no wildcards,
and searching it in a table containing "The Great Gatsby" returns exactly
the rows whose ASCII-folded title contains "great". -/
theorem search_is_ci_substring_holds :
    (∀ c ∈ "great".data, c.toNat < 128) ∧ noWild "great".data ∧
      (∀ b, b ∈ (search_books ⟨[⟨1, "The Great Gatsby", "f", 1925, "Novel", true⟩], 2⟩
          false "Title" "great").2 ↔
        b ∈ [(⟨1, "The Great Gatsby", "f", 1925, "Novel", true⟩ : Book)] ∧
          (sqliteLower "great").data <:+: (sqliteLower b.title).data) :=
  ⟨by decide, by decide,
    (search_is_ci_substring ⟨[⟨1, "The Great Gatsby", "f", 1925, "Novel", true⟩], 2⟩
      "great" (by decide) (by decide)).1.2.1⟩

/-! Invariant of operation runs: the AUTOINCREMENT counter stays positive
and strictly above every id assigned so far. -/

/-- Preservation of the id invariant across one operation. -/
theorem stepIds_inv (p : DBState × List Nat) (op : Op)
    (h₁ : 1 ≤ p.1.nextId) (h₂ : ∀ i ∈ p.2, i < p.1.nextId) :
    1 ≤ (stepIds p op).1.nextId ∧
      ∀ i ∈ (stepIds p op).2, i < (stepIds p op).1.nextId := by
  cases op with
  | add t a y g r f =>
    cases f
    · constructor
      · show 1 ≤ p.1.nextId + 1
        omega
      · show ∀ i ∈ p.2 ++ [p.1.nextId], i < p.1.nextId + 1
        intro i hi
        rcases List.mem_append.mp hi with hi | hi
        · exact Nat.lt_succ_of_lt (h₂ i hi)
        · have := List.mem_singleton.mp hi
          omega
    · exact ⟨h₁, fun i hi => h₂ i (by simpa [stepIds, opAssigns] using hi)⟩
  | del i f =>
    cases f <;>
      exact ⟨h₁, fun i hi => h₂ i (by simpa [stepIds, opAssigns] using hi)⟩
  | list f =>
    have hfst : (stepIds p (.list f)).1 = p.1 := get_all_books_fst p.1 f
    rw [hfst]
    exact ⟨h₁, fun i hi => h₂ i (by simpa [stepIds, opAssigns] using hi)⟩
  | search ty q f =>
    have hfst : (stepIds p (.search ty q f)).1 = p.1 := search_books_fst p.1 f ty q
    rw [hfst]
    exact ⟨h₁, fun i hi => h₂ i (by simpa [stepIds, opAssigns] using hi)⟩
  | stats f =>
    have hfst : (stepIds p (.stats f)).1 = p.1 := get_statistics_fst p.1 f
    rw [hfst]
    exact ⟨h₁, fun i hi => h₂ i (by simpa [stepIds, opAssigns] using hi)⟩

/-- Preservation of the id invariant along a fold. -/
theorem foldl_stepIds_inv : ∀ (ops : List Op) (p : DBState × List Nat),
    1 ≤ p.1.nextId → (∀ i ∈ p.2, i < p.1.nextId) →
    1 ≤ (ops.foldl stepIds p).1.nextId ∧
      ∀ i ∈ (ops.foldl stepIds p).2, i < (ops.foldl stepIds p).1.nextId
  | [], _, h₁, h₂ => ⟨h₁, h₂⟩
  | op :: ops, p, h₁, h₂ => by
    rw [List.foldl_cons]
    have h := stepIds_inv p op h₁ h₂
    exact foldl_stepIds_inv ops _ h.1 h.2

/-- Invariant of every run from the fresh database. -/
theorem runIds_inv (ops : List Op) :
    1 ≤ (runIds ops).1.nextId ∧ ∀ i ∈ (runIds ops).2, i < (runIds ops).1.nextId :=
  foldl_stepIds_inv ops (initialState, []) (by decide) (by simp)

/-- C1 counterexample: the Search half of the round-trip fails at the
non-ASCII title "Über".  The fault-free Add succeeds and List returns the
record, but searching the exact title returns the empty list: the LIKE
parameter is Python-lowered to "%über%" while SQLite `LOWER` leaves the
stored title at "Über", and `LIKE` does not fold non-ASCII case. -/
theorem add_search_roundtrip_cex :
    (add_book_to_db initialState false "Über" "a" 2000 "g" true).2 = true ∧
      (⟨1, "Über", "a", 2000, "g", true⟩ : Book) ∈
        (get_all_books
          (add_book_to_db initialState false "Über" "a" 2000 "g" true).1 false).2 ∧
      (search_books (add_book_to_db initialState false "Über" "a" 2000 "g" true).1
          false "Title" "Über").2 = [] := by decide

/-- C1 (amended): after any sequence of prior operations, a fault-free
Add with valid (non-empty) fields succeeds, and List then returns the
record with exactly those fields, whose id is the fresh positive
AUTOINCREMENT value, distinct from every id assigned by any earlier
operation; Search on the exact title also returns it provided the title
is ASCII (for non-ASCII titles Python's lowering of the search parameter
and SQLite's ASCII-only `LOWER` of the stored title disagree, and the
search misses the record: see the counterexample). -/
theorem add_list_search_roundtrip (ops : List Op) (t a : String) (y : Int)
    (g : String) (r : Bool) (ht : t ≠ "") (ha : a ≠ "") (hg : g ≠ "") :
    (add_book_to_db (runIds ops).1 false t a y g r).2 = true ∧
      0 < (runIds ops).1.nextId ∧
      (runIds ops).1.nextId ∉ (runIds ops).2 ∧
      (⟨(runIds ops).1.nextId, t, a, y, g, r⟩ : Book) ∈
        (get_all_books (add_book_to_db (runIds ops).1 false t a y g r).1 false).2 ∧
      ((∀ c ∈ t.data, c.toNat < 128) →
        (⟨(runIds ops).1.nextId, t, a, y, g, r⟩ : Book) ∈
          (search_books (add_book_to_db (runIds ops).1 false t a y g r).1
            false "Title" t).2) := by
  obtain ⟨h₁, h₂⟩ := runIds_inv ops
  refine ⟨rfl, h₁, ?_, ?_, ?_⟩
  · intro hmem
    exact absurd (h₂ _ hmem) (Nat.lt_irrefl _)
  · rw [get_all_books_res, List.mem_insertionSort]
    show _ ∈ (runIds ops).1.rows ++ [(⟨(runIds ops).1.nextId, t, a, y, g, r⟩ : Book)]
    simp
  · intro hascii
    rw [search_books_title_res, List.mem_insertionSort, List.mem_filter]
    constructor
    · show _ ∈ (runIds ops).1.rows ++ [(⟨(runIds ops).1.nextId, t, a, y, g, r⟩ : Book)]
      simp
    · show likeRow ("%" ++ pyLower t ++ "%") t = true
      rw [pyLower_eq_sqliteLower hascii, likeRow, pattern_data]
      exact likeB_self (sqliteLower t).data

/-- C1 witness: after a prior delete operation, adding a concrete book
with the ASCII title "b" and then listing, or searching the exact title,
returns the added record. -/
theorem add_list_search_roundtrip_holds :
    ("b" : String) ≠ "" ∧
      (⟨(runIds [Op.del 7 false]).1.nextId, "b", "a", 2000, "g", true⟩ : Book) ∈
        (get_all_books
          (add_book_to_db (runIds [Op.del 7 false]).1 false "b" "a" 2000 "g" true).1
          false).2 ∧
      (⟨(runIds [Op.del 7 false]).1.nextId, "b", "a", 2000, "g", true⟩ : Book) ∈
        (search_books
          (add_book_to_db (runIds [Op.del 7 false]).1 false "b" "a" 2000 "g" true).1
          false "Title" "b").2 :=
  ⟨by decide,
    (add_list_search_roundtrip [Op.del 7 false] "b" "a" 2000 "g" true
      (by decide) (by decide) (by decide)).2.2.2.1,
    (add_list_search_roundtrip [Op.del 7 false] "b" "a" 2000 "g" true
      (by decide) (by decide) (by decide)).2.2.2.2 (by decide)⟩

/-! Properties of `GROUP BY`/`COUNT` aggregation. -/

/-- Membership in the grouped counts. -/
theorem mem_groupCounts {α : Type} [DecidableEq α] {l : List α} {k : α} {c : Nat} :
    (k, c) ∈ groupCounts l ↔ k ∈ l ∧ c = l.count k := by
  simp only [groupCounts, List.mem_map, Prod.mk.injEq, List.mem_dedup]
  constructor
  · rintro ⟨x, hx, rfl, rfl⟩
    exact ⟨hx, rfl⟩
  · rintro ⟨hk, rfl⟩
    exact ⟨k, hk, rfl, rfl⟩

/-- Keys of the grouped counts are distinct. -/
theorem nodup_groupCounts_keys {α : Type} [DecidableEq α] (l : List α) :
    ((groupCounts l).map Prod.fst).Nodup := by
  have h : (groupCounts l).map Prod.fst = l.dedup := by
    simp [groupCounts, List.map_map, Function.comp_def]
  rw [h]
  exact l.nodup_dedup

/-- Count of a key in a mapped list, as a filter length. -/
theorem count_map_eq_length_filter {α β : Type} [DecidableEq β] (f : α → β)
    (l : List α) (d : β) :
    (l.map f).count d = (l.filter fun b => f b == d).length := by
  rw [List.count, List.countP_map, List.countP_eq_length_filter]
  rfl

/-- Membership in the decades report: every decade of a stored book occurs
with the exact number of books falling in it. -/
theorem mem_decadePairs {rows : List Book} {d : Int} {c : Nat} :
    (d, c) ∈ decadePairs rows ↔
      (∃ b ∈ rows, sqlDecade b.year = d) ∧
        c = (rows.filter fun b => sqlDecade b.year == d).length := by
  rw [decadePairs, List.mem_insertionSort, mem_groupCounts,
    count_map_eq_length_filter]
  simp [List.mem_map]

/-- The decades report is strictly ascending in the decade key. -/
theorem decadePairs_keys_sorted (rows : List Book) :
    ((decadePairs rows).map Prod.fst).Pairwise (· < ·) := by
  haveI : IsTotal (Int × Nat) decadeLe := ⟨fun p q => Int.le_total p.1 q.1⟩
  haveI : IsTrans (Int × Nat) decadeLe := ⟨fun p q u h₁ h₂ => le_trans h₁ h₂⟩
  have hsorted : (decadePairs rows).Pairwise decadeLe :=
    List.sorted_insertionSort decadeLe _
  have hperm : List.Perm (decadePairs rows)
      (groupCounts (rows.map fun b => sqlDecade b.year)) :=
    List.perm_insertionSort _ _
  have hnodup : ((decadePairs rows).map Prod.fst).Nodup :=
    (hperm.map Prod.fst).nodup_iff.mpr
      (nodup_groupCounts_keys (rows.map fun b => sqlDecade b.year))
  have hle : ((decadePairs rows).map Prod.fst).Pairwise (· ≤ ·) := by
    rw [List.pairwise_map]
    exact hsorted
  exact (hle.and hnodup).imp fun h => lt_of_le_of_ne h.1 h.2

/-- C6 counterexample: the decade key is not floor(year/10)*10 on every
stored table.  The store accepts any integer year; for a stored year of
-5 SQLite's integer division truncates toward zero and the report buckets
the book under "0s", while the claim's floor formula yields decade
-10. -/
theorem statistics_decades_cex :
    (get_statistics ⟨[⟨1, "t", "a", -5, "g", false⟩], 2⟩ noFaults).2.decades =
        [("0s", 1)] ∧
      Int.fdiv (-5) 10 * 10 = -10 ∧ sqlDecade (-5) = 0 := by decide

/-- C6 (amended): the decades report of Statistics buckets each book by
the key (year/10)*10 computed with SQLite's truncating integer division —
which equals the floor formula floor(year/10)*10 whenever the year is
nonnegative, as every year entered through the input form (minimum 2000)
is — contains every decade present with its exact count and nothing
else, has no limit on the number of decades, and is ordered strictly
ascending by decade value, formatted as `f"{decade}s"`. -/
theorem statistics_decades_trunc (s : DBState) :
    (get_statistics s noFaults).2.decades =
      (decadePairs s.rows).map (fun p => (toString p.1 ++ "s", p.2)) ∧
      (∀ d c, (d, c) ∈ decadePairs s.rows ↔
        (∃ b ∈ s.rows, sqlDecade b.year = d) ∧
          c = (s.rows.filter fun b => sqlDecade b.year == d).length) ∧
      ((decadePairs s.rows).map Prod.fst).Pairwise (· < ·) ∧
      (∀ y : Int, 0 ≤ y → sqlDecade y = y.fdiv 10 * 10) :=
  ⟨rfl, fun _ _ => mem_decadePairs, decadePairs_keys_sorted s.rows,
    fun y hy => by
      rw [sqlDecade, Int.tdiv_eq_ediv hy (by decide), Int.fdiv_eq_ediv _ (by decide)]⟩

/-- C6 witness: books of years 1995, 1999, 2001, 2005 produce the
formatted bucket list, and on the nonnegative year 1995 the truncating
key coincides with the floor formula. -/
theorem statistics_decades_trunc_holds :
    (get_statistics ⟨[⟨1, "a", "x", 1995, "g", false⟩, ⟨2, "b", "x", 1999, "g", false⟩,
        ⟨3, "c", "x", 2001, "g", false⟩, ⟨4, "d", "x", 2005, "g", false⟩], 5⟩
          noFaults).2.decades =
        (decadePairs (⟨[⟨1, "a", "x", 1995, "g", false⟩, ⟨2, "b", "x", 1999, "g", false⟩,
          ⟨3, "c", "x", 2001, "g", false⟩, ⟨4, "d", "x", 2005, "g", false⟩], 5⟩ :
            DBState).rows).map (fun p => (toString p.1 ++ "s", p.2)) ∧
      (0 : Int) ≤ 1995 ∧ sqlDecade 1995 = Int.fdiv 1995 10 * 10 :=
  ⟨(statistics_decades_trunc ⟨[⟨1, "a", "x", 1995, "g", false⟩,
      ⟨2, "b", "x", 1999, "g", false⟩, ⟨3, "c", "x", 2001, "g", false⟩,
      ⟨4, "d", "x", 2005, "g", false⟩], 5⟩).1,
    by decide,
    (statistics_decades_trunc ⟨[⟨1, "a", "x", 1995, "g", false⟩,
      ⟨2, "b", "x", 1999, "g", false⟩, ⟨3, "c", "x", 2001, "g", false⟩,
      ⟨4, "d", "x", 2005, "g", false⟩], 5⟩).2.2.2 1995 (by decide)⟩

/-! Properties of the top-5 reports. -/

/-- Entries of the top-5 report are genuine grouped counts. -/
theorem mem_topPairs {α : Type} [DecidableEq α] {keys : List α} {k : α} {c : Nat}
    (h : (k, c) ∈ topPairs keys) : k ∈ keys ∧ c = keys.count k := by
  have hmem : (k, c) ∈ (groupCounts keys).insertionSort countGe :=
    List.mem_of_mem_take h
  rw [List.mem_insertionSort] at hmem
  exact mem_groupCounts.mp hmem

/-- The top-5 report has at most five entries. -/
theorem topPairs_length {α : Type} [DecidableEq α] (keys : List α) :
    (topPairs keys).length ≤ 5 := by
  rw [topPairs, List.length_take]
  exact Nat.min_le_left _ _

/-- The top-5 report is sorted by count descending. -/
theorem topPairs_sorted {α : Type} [DecidableEq α] (keys : List α) :
    (topPairs keys).Pairwise countGe := by
  haveI : IsTotal (α × Nat) countGe := ⟨fun p q => Nat.le_total q.2 p.2⟩
  haveI : IsTrans (α × Nat) countGe := ⟨fun p q u h₁ h₂ => Nat.le_trans h₂ h₁⟩
  exact List.Pairwise.sublist (List.take_sublist 5 _)
    (List.sorted_insertionSort countGe _)

/-- Dominance: a key left out of the top-5 report counts no more than any
reported entry. -/
theorem topPairs_dominates {α : Type} [DecidableEq α] {keys : List α} {k : α}
    (hk : k ∈ keys) (hout : ∀ p ∈ topPairs keys, p.1 ≠ k) :
    ∀ p ∈ topPairs keys, keys.count k ≤ p.2 := by
  haveI : IsTotal (α × Nat) countGe := ⟨fun p q => Nat.le_total q.2 p.2⟩
  haveI : IsTrans (α × Nat) countGe := ⟨fun p q u h₁ h₂ => Nat.le_trans h₂ h₁⟩
  have hmem : (k, keys.count k) ∈ (groupCounts keys).insertionSort countGe := by
    rw [List.mem_insertionSort]
    exact mem_groupCounts.mpr ⟨hk, rfl⟩
  have hpair : ((groupCounts keys).insertionSort countGe).Pairwise countGe :=
    List.sorted_insertionSort countGe _
  have hsplit : (groupCounts keys).insertionSort countGe =
      ((groupCounts keys).insertionSort countGe).take 5 ++
        ((groupCounts keys).insertionSort countGe).drop 5 :=
    (List.take_append_drop 5 _).symm
  have hdrop : (k, keys.count k) ∈ ((groupCounts keys).insertionSort countGe).drop 5 := by
    rcases List.mem_append.mp (hsplit ▸ hmem) with hmem₀ | hmem₀
    · exact absurd rfl (hout _ hmem₀)
    · exact hmem₀
  intro p hp
  exact (List.pairwise_append.mp (hsplit ▸ hpair)).2.2 p hp (k, keys.count k) hdrop

/-- C7: each of the genres and authors entries of Statistics has at most 5
entries sorted by count descending, every entry carries the exact number
of books of that key, and every stored key missing from the entry has a
count no larger than any reported one (so the reported keys are those with
the highest counts, ties broken arbitrarily). -/
theorem statistics_top5 (s : DBState) :
    ((get_statistics s noFaults).2.genres = topPairs (s.rows.map fun b => b.genre) ∧
      (get_statistics s noFaults).2.genres.length ≤ 5 ∧
      (get_statistics s noFaults).2.genres.Pairwise countGe ∧
      (∀ g c, (g, c) ∈ (get_statistics s noFaults).2.genres →
        g ∈ s.rows.map (fun b => b.genre) ∧
          c = (s.rows.map fun b => b.genre).count g) ∧
      (∀ g, g ∈ s.rows.map (fun b => b.genre) →
        (∀ p ∈ (get_statistics s noFaults).2.genres, p.1 ≠ g) →
        ∀ p ∈ (get_statistics s noFaults).2.genres,
          (s.rows.map fun b => b.genre).count g ≤ p.2)) ∧
    ((get_statistics s noFaults).2.authors = topPairs (s.rows.map fun b => b.author) ∧
      (get_statistics s noFaults).2.authors.length ≤ 5 ∧
      (get_statistics s noFaults).2.authors.Pairwise countGe ∧
      (∀ a c, (a, c) ∈ (get_statistics s noFaults).2.authors →
        a ∈ s.rows.map (fun b => b.author) ∧
          c = (s.rows.map fun b => b.author).count a) ∧
      (∀ a, a ∈ s.rows.map (fun b => b.author) →
        (∀ p ∈ (get_statistics s noFaults).2.authors, p.1 ≠ a) →
        ∀ p ∈ (get_statistics s noFaults).2.authors,
          (s.rows.map fun b => b.author).count a ≤ p.2)) :=
  ⟨⟨rfl, topPairs_length _, topPairs_sorted _,
      fun _ _ hgc => mem_topPairs hgc,
      fun _ hin hout => topPairs_dominates hin hout⟩,
    ⟨rfl, topPairs_length _, topPairs_sorted _,
      fun _ _ hac => mem_topPairs hac,
      fun _ hin hout => topPairs_dominates hin hout⟩⟩

/-- C7 witness: on a table with seven books across six genres (genre "a"
twice, "b" … "f" once each) the genres report keeps five entries, omits
"f", and the omitted genre's count is dominated by every reported one. -/
theorem statistics_top5_holds :
    "f" ∈ ((⟨[⟨1, "t1", "x", 2000, "a", false⟩, ⟨2, "t2", "x", 2000, "a", false⟩,
        ⟨3, "t3", "x", 2000, "b", false⟩, ⟨4, "t4", "x", 2000, "c", false⟩,
        ⟨5, "t5", "x", 2000, "d", false⟩, ⟨6, "t6", "x", 2000, "e", false⟩,
        ⟨7, "t7", "x", 2000, "f", false⟩], 8⟩ : DBState).rows.map fun b => b.genre) ∧
      (∀ p ∈ (get_statistics ⟨[⟨1, "t1", "x", 2000, "a", false⟩,
        ⟨2, "t2", "x", 2000, "a", false⟩, ⟨3, "t3", "x", 2000, "b", false⟩,
        ⟨4, "t4", "x", 2000, "c", false⟩, ⟨5, "t5", "x", 2000, "d", false⟩,
        ⟨6, "t6", "x", 2000, "e", false⟩, ⟨7, "t7", "x", 2000, "f", false⟩], 8⟩
          noFaults).2.genres, p.1 ≠ "f") ∧
      ∀ p ∈ (get_statistics ⟨[⟨1, "t1", "x", 2000, "a", false⟩,
        ⟨2, "t2", "x", 2000, "a", false⟩, ⟨3, "t3", "x", 2000, "b", false⟩,
        ⟨4, "t4", "x", 2000, "c", false⟩, ⟨5, "t5", "x", 2000, "d", false⟩,
        ⟨6, "t6", "x", 2000, "e", false⟩, ⟨7, "t7", "x", 2000, "f", false⟩], 8⟩
          noFaults).2.genres,
        ((⟨[⟨1, "t1", "x", 2000, "a", false⟩, ⟨2, "t2", "x", 2000, "a", false⟩,
          ⟨3, "t3", "x", 2000, "b", false⟩, ⟨4, "t4", "x", 2000, "c", false⟩,
          ⟨5, "t5", "x", 2000, "d", false⟩, ⟨6, "t6", "x", 2000, "e", false⟩,
          ⟨7, "t7", "x", 2000, "f", false⟩], 8⟩ : DBState).rows.map
            fun b => b.genre).count "f" ≤ p.2 :=
  ⟨by decide, by decide,
    (statistics_top5 ⟨[⟨1, "t1", "x", 2000, "a", false⟩, ⟨2, "t2", "x", 2000, "a", false⟩,
      ⟨3, "t3", "x", 2000, "b", false⟩, ⟨4, "t4", "x", 2000, "c", false⟩,
      ⟨5, "t5", "x", 2000, "d", false⟩, ⟨6, "t6", "x", 2000, "e", false⟩,
      ⟨7, "t7", "x", 2000, "f", false⟩], 8⟩).1.2.2.2.2 "f" (by decide) (by decide)⟩

/-- C9: an unescaped `_` in the search string acts as a SQL LIKE wildcard:
searching titles for "a_c" returns the row titled "abc", although "a_c" is
not literally contained in "abc". -/
theorem search_underscore_is_wildcard :
    (search_books ⟨[⟨1, "abc", "x", 2000, "g", false⟩], 2⟩ false "Title" "a_c").2 =
        [⟨1, "abc", "x", 2000, "g", false⟩] ∧
      ¬ ("a_c".data <:+: "abc".data) ∧ '_' ∈ "a_c".data := by decide

end LibraryStore
